import Mathlib

/-!
Verification of the RedditStoriesGen core: the single-worker job queue of
`src/api.py` and the step-based pipeline state machine of
`src/ShortGen/engine/reddit_short_engine.py`, shallowly embedded in Lean.
Machine reals (Python floats for durations) are modelled as rationals;
external effects (ffmpeg, moviepy, whisper, the filesystem, random draws)
are supplied through explicit environment records, and Python exceptions
become explicit error values.
-/

namespace RedditStoriesGen

/-! ## The job queue worker of src/api.py -/

/-- The request body accepted by the POST /generate endpoint
(class GenerateRequest in src/api.py). -/
structure GenerateRequest where
  title : String
  content : String
  callback_url : String
  short_id : String
deriving Repr, DecidableEq

/-- Outcome of one run of generate_video_sync for a job: either the final
video path, or the stringified exception that the run raised. -/
inductive JobResult where
  | success (video_path : String)
  | failure (error : String)
deriving Repr, DecidableEq

/-- Observable events of the process_queue worker loop, in the order the
loop produces them: the start of a job's execution, the terminal webhook
callback (success or failure), and job_queue.task_done. -/
inductive WorkerEvent where
  | start (short_id : String)
  | webhookSuccess (short_id : String) (video_path : String)
  | webhookFailure (short_id : String) (error : String)
  | taskDone (short_id : String)
deriving Repr, DecidableEq

/-- The terminal callback the worker sends for a job: the try branch of
process_queue posts a success webhook with the video path; the except
branch catches every exception and posts a failure webhook whose error
field is str(e). -/
def terminalEvent (run : GenerateRequest → JobResult) (job : GenerateRequest) : WorkerEvent :=
  match run job with
  | .success p => .webhookSuccess job.short_id p
  | .failure e => .webhookFailure job.short_id e

/-- One iteration of the process_queue body for a dequeued job: execution
starts, the terminal webhook is sent (try/except), and the finally block
marks the queue entry done. -/
def processJob (run : GenerateRequest → JobResult) (job : GenerateRequest) : List WorkerEvent :=
  [.start job.short_id, terminalEvent run job, .taskDone job.short_id]

/-- The event trace of the process_queue worker loop over the FIFO queue
contents: jobs are dequeued in submission order (asyncio.Queue is FIFO and
the POST /generate endpoint only enqueues), and each job's iteration runs
to completion before the next get(). -/
def process_queue (run : GenerateRequest → JobResult) :
    List GenerateRequest → List WorkerEvent
  | [] => []
  | job :: rest => processJob run job ++ process_queue run rest

/-- True for the two terminal-callback events. -/
def WorkerEvent.isTerminalCallback : WorkerEvent → Bool
  | .webhookSuccess _ _ => true
  | .webhookFailure _ _ => true
  | _ => false

/-- Extracts the id of a start event. -/
def WorkerEvent.startId : WorkerEvent → Option String
  | .start i => some i
  | _ => none

theorem process_queue_cons (run : GenerateRequest → JobResult) (job : GenerateRequest)
    (rest : List GenerateRequest) :
    process_queue run (job :: rest) =
      .start job.short_id :: terminalEvent run job :: .taskDone job.short_id ::
        process_queue run rest := rfl

theorem process_queue_length (run : GenerateRequest → JobResult) (jobs : List GenerateRequest) :
    (process_queue run jobs).length = 3 * jobs.length := by
  induction jobs with
  | nil => rfl
  | cons job rest ih =>
    simp only [process_queue_cons, List.length_cons, ih]
    ring

theorem process_queue_getElem (run : GenerateRequest → JobResult)
    (jobs : List GenerateRequest) (i : ℕ) (hi : i < jobs.length) :
    (process_queue run jobs)[3 * i]? = some (.start jobs[i].short_id) ∧
    (process_queue run jobs)[3 * i + 1]? = some (terminalEvent run jobs[i]) ∧
    (process_queue run jobs)[3 * i + 2]? = some (.taskDone jobs[i].short_id) := by
  induction jobs generalizing i with
  | nil => simp at hi
  | cons job rest ih =>
    cases i with
    | zero => simp [process_queue_cons]
    | succ n =>
      have hn : n < rest.length := by simpa using hi
      have h3 : 3 * (n + 1) = 3 * n + 1 + 1 + 1 := by ring
      have h4 : 3 * (n + 1) + 1 = 3 * n + 1 + 1 + 1 + 1 := by ring
      have h5 : 3 * (n + 1) + 2 = 3 * n + 2 + 1 + 1 + 1 := by ring
      obtain ⟨e1, e2, e3⟩ := ih n hn
      refine ⟨?_, ?_, ?_⟩
      · rw [h3]; simpa [process_queue_cons] using e1
      · rw [h4]; simpa [process_queue_cons] using e2
      · rw [h5]; simpa [process_queue_cons] using e3

theorem process_queue_starts (run : GenerateRequest → JobResult) (jobs : List GenerateRequest) :
    (process_queue run jobs).filterMap WorkerEvent.startId = jobs.map (·.short_id) := by
  induction jobs with
  | nil => rfl
  | cons job rest ih =>
    have hterm : WorkerEvent.startId (terminalEvent run job) = none := by
      unfold terminalEvent
      cases run job <;> rfl
    simp only [process_queue_cons, List.filterMap_cons, hterm]
    simp [WorkerEvent.startId, ih]

theorem terminalEvent_isTerminalCallback (run : GenerateRequest → JobResult)
    (job : GenerateRequest) : (terminalEvent run job).isTerminalCallback = true := by
  unfold terminalEvent
  cases run job <;> rfl

/-- C1: the job queue executes at most one job at a time and strictly in
submission order. In the worker-loop trace, the start events appear exactly
in submission order, and for any earlier submission i and later submission
j, submission j's start event (at trace index 3j) occurs strictly after
submission i's terminal callback (index 3i+1, a webhook event) and after
its task_done mark (index 3i+2). -/
theorem claim_C1_queue_serial_fifo (run : GenerateRequest → JobResult)
    (jobs : List GenerateRequest) :
    (process_queue run jobs).filterMap WorkerEvent.startId = jobs.map (·.short_id) ∧
    (∀ i j, i < j → ∀ hj : j < jobs.length,
      ∃ hi : i < jobs.length,
        (process_queue run jobs)[3 * j]? = some (.start jobs[j].short_id) ∧
        (process_queue run jobs)[3 * i + 1]? = some (terminalEvent run jobs[i]) ∧
        (terminalEvent run jobs[i]).isTerminalCallback = true ∧
        (process_queue run jobs)[3 * i + 2]? = some (.taskDone jobs[i].short_id) ∧
        3 * i + 1 < 3 * j ∧ 3 * i + 2 < 3 * j) := by
  refine ⟨process_queue_starts run jobs, ?_⟩
  intro i j hij hj
  have hi : i < jobs.length := lt_trans hij hj
  obtain ⟨sj, _, _⟩ := process_queue_getElem run jobs j hj
  obtain ⟨_, ci, di⟩ := process_queue_getElem run jobs i hi
  exact ⟨hi, sj, ci, terminalEvent_isTerminalCallback run jobs[i], di,
    by omega, by omega⟩

/-- A sample submission, used only to witness the queue theorems. -/
def demoJob (i : String) : GenerateRequest :=
  { title := "t", content := "c", callback_url := "http://cb", short_id := i }

/-- Three sample submissions A, B, C in submission order. -/
def demoJobs : List GenerateRequest := [demoJob "A", demoJob "B", demoJob "C"]

/-- A sample execution oracle in which job A raises and the others succeed. -/
def demoRun : GenerateRequest → JobResult := fun j =>
  if j.short_id = "A" then .failure "boom" else .success "output/video.mp4"

theorem claim_C1_witness :
    (process_queue demoRun demoJobs).filterMap WorkerEvent.startId = ["A", "B", "C"] ∧
    (process_queue demoRun demoJobs)[3]? = some (.start "B") ∧
    (process_queue demoRun demoJobs)[1]? = some (terminalEvent demoRun (demoJob "A")) ∧
    (process_queue demoRun demoJobs)[2]? = some (.taskDone "A") := by
  obtain ⟨hstarts, hord⟩ := claim_C1_queue_serial_fifo demoRun demoJobs
  obtain ⟨hi, sj, ci, _, di, _, _⟩ := hord 0 1 (by decide) (by decide)
  refine ⟨?_, ?_, ?_, ?_⟩
  · rw [hstarts]; rfl
  · simpa using sj
  · simpa using ci
  · simpa using di

/-- C7: the worker loop never crashes on a job failure. Every submitted job
is fully processed (the trace has exactly three events per submission), and
any job whose execution raises still gets a start event, a failure webhook
carrying the stringified exception, and a task_done mark, after which the
trace continues with the next queued job's events. -/
theorem claim_C7_worker_never_crashes (run : GenerateRequest → JobResult)
    (jobs : List GenerateRequest) :
    (process_queue run jobs).length = 3 * jobs.length ∧
    (∀ k, ∀ hk : k < jobs.length,
      (process_queue run jobs)[3 * k]? = some (.start jobs[k].short_id)) ∧
    (∀ i, ∀ hi : i < jobs.length, ∀ msg, run jobs[i] = .failure msg →
      (process_queue run jobs)[3 * i]? = some (.start jobs[i].short_id) ∧
      (process_queue run jobs)[3 * i + 1]? =
        some (.webhookFailure jobs[i].short_id msg) ∧
      (process_queue run jobs)[3 * i + 2]? = some (.taskDone jobs[i].short_id)) := by
  refine ⟨process_queue_length run jobs, ?_, ?_⟩
  · intro k hk
    exact (process_queue_getElem run jobs k hk).1
  · intro i hi msg hmsg
    obtain ⟨si, ci, di⟩ := process_queue_getElem run jobs i hi
    refine ⟨si, ?_, di⟩
    rw [ci]
    unfold terminalEvent
    rw [hmsg]

theorem claim_C7_witness :
    (process_queue demoRun demoJobs).length = 9 ∧
    (process_queue demoRun demoJobs)[1]? = some (.webhookFailure "A" "boom") ∧
    (process_queue demoRun demoJobs)[2]? = some (.taskDone "A") ∧
    (process_queue demoRun demoJobs)[3]? = some (.start "B") := by
  obtain ⟨hlen, hstart, hfail⟩ := claim_C7_worker_never_crashes demoRun demoJobs
  obtain ⟨_, c1, c2⟩ := hfail 0 (by decide) "boom" (by decide)
  refine ⟨by simpa using hlen, by simpa using c1, by simpa using c2,
    by simpa using hstart 1 (by decide)⟩

/-! ## The step-based pipeline driver of RedditShortEngine
(makeContent, isShortDone, _saveVideo in
src/ShortGen/engine/reddit_short_engine.py) -/

/-- The driver-visible state of a RedditShortEngine job record: the fields
read and written by the makeContent loop (_db_last_completed_step,
_db_ready_to_upload) together with _db_video_path, which _saveVideo reads
and writes. Step bodies touch further record fields; those are modelled in
the dedicated step functions below. -/
structure EngineState where
  last_completed_step : ℕ
  ready_to_upload : Bool
  video_path : String
deriving Repr, DecidableEq

/-- The engine state set up by RedditShortEngine.__init__:
_db_last_completed_step = 0, _db_ready_to_upload = False,
_db_video_path = "". -/
def initialEngineState : EngineState :=
  { last_completed_step := 0, ready_to_upload := false, video_path := "" }

/-- The keys of self.stepDict: steps 1.._generateScript through
9._saveVideo. -/
def stepDictKeys : List ℕ := [1, 2, 3, 4, 5, 6, 7, 8, 9]

/-- get_total_steps returns len(self.stepDict). -/
def get_total_steps : ℕ := stepDictKeys.length

/-- The membership test "currentStep not in self.stepDict" of makeContent. -/
def stepDictHasKey (n : ℕ) : Bool := stepDictKeys.contains n

/-- isShortDone returns self._db_ready_to_upload. -/
def isShortDone (s : EngineState) : Bool := s.ready_to_upload

/-- Outcome of executing one step body: normal return, or a raised
exception with its message. -/
inductive StepOutcome where
  | ok
  | err (msg : String)
deriving Repr, DecidableEq

/-- Result of one iteration of the makeContent loop: the while-condition
found the job done (the generator stops, signalling completion); the step
ran and the driver recorded its index; the step raised, propagating out of
the generator; or the computed step index was not a stepDict key and the
driver raised "Incorrect step". -/
inductive AdvanceResult where
  | completed
  | progressed (next : EngineState) (stepIndex : ℕ)
  | failed (next : EngineState) (msg : String)
  | incorrectStep (current : ℕ)
deriving Repr, DecidableEq

/-- One iteration of the makeContent loop: if isShortDone, the generator
terminates; otherwise currentStep = _db_last_completed_step + 1 is looked
up in stepDict ("Incorrect step" if absent), the step body runs, and on
normal return the driver sets _db_last_completed_step = currentStep. Step
bodies never write _db_last_completed_step; only step 9 (_saveVideo) sets
_db_ready_to_upload, at the very end of its body, so a raising step leaves
both fields unchanged. -/
def advance (s : EngineState) (outcome : StepOutcome) : AdvanceResult :=
  if isShortDone s then .completed
  else
    let current := s.last_completed_step + 1
    if stepDictHasKey current then
      match outcome with
      | .ok =>
          .progressed
            { s with
              last_completed_step := current,
              ready_to_upload := s.ready_to_upload || (current == 9) }
            current
      | .err m => .failed s m
    else .incorrectStep current

/-- The engine state after one loop iteration (the record as left behind by
a completed, successful, raising, or incorrect-step iteration). -/
def AdvanceResult.state (orig : EngineState) : AdvanceResult → EngineState
  | .completed => orig
  | .progressed s _ => s
  | .failed s _ => s
  | .incorrectStep _ => orig

/-- The engine state after driving the loop through a list of step
outcomes. -/
def runAdvances (s : EngineState) : List StepOutcome → EngineState
  | [] => s
  | o :: rest => runAdvances ((advance s o).state s) rest

theorem stepDictHasKey_iff (n : ℕ) : stepDictHasKey n = true ↔ 1 ≤ n ∧ n ≤ 9 := by
  unfold stepDictHasKey stepDictKeys
  simp
  omega

theorem advance_ok_eq (s : EngineState) (h2 : s.ready_to_upload = false)
    (hk : stepDictHasKey (s.last_completed_step + 1) = true) :
    advance s .ok = .progressed
      { s with
        last_completed_step := s.last_completed_step + 1,
        ready_to_upload := s.ready_to_upload || (s.last_completed_step + 1 == 9) }
      (s.last_completed_step + 1) := by
  unfold advance
  simp [isShortDone, h2, hk]

theorem advance_err_eq (s : EngineState) (m : String) (h2 : s.ready_to_upload = false)
    (hk : stepDictHasKey (s.last_completed_step + 1) = true) :
    advance s (.err m) = .failed s m := by
  unfold advance
  simp [isShortDone, h2, hk]

theorem advance_done_eq (s : EngineState) (o : StepOutcome)
    (h2 : s.ready_to_upload = true) : advance s o = .completed := by
  unfold advance
  simp [isShortDone, h2]

theorem advance_bad_eq (s : EngineState) (o : StepOutcome)
    (h2 : s.ready_to_upload = false)
    (hk : stepDictHasKey (s.last_completed_step + 1) = false) :
    advance s o = .incorrectStep (s.last_completed_step + 1) := by
  unfold advance
  cases o <;> simp [isShortDone, h2, hk]

theorem advance_lcs_mono (s : EngineState) (o : StepOutcome) :
    s.last_completed_step ≤ ((advance s o).state s).last_completed_step := by
  unfold advance AdvanceResult.state
  by_cases h : isShortDone s = true
  · simp [h]
  · simp only [Bool.not_eq_true] at h
    simp only [h]
    by_cases hk : stepDictHasKey (s.last_completed_step + 1) = true
    · simp only [hk, if_true, if_false, Bool.false_eq_true]
      cases o <;> simp
    · simp only [Bool.not_eq_true] at hk
      simp [hk]

theorem runAdvances_lcs_mono (s : EngineState) (outcomes : List StepOutcome) :
    s.last_completed_step ≤ (runAdvances s outcomes).last_completed_step := by
  induction outcomes generalizing s with
  | nil => exact le_refl _
  | cons o rest ih =>
    exact le_trans (advance_lcs_mono s o) (ih ((advance s o).state s))

/-- C4: last_completed_step is monotonically non-decreasing. A single loop
iteration never decreases it, a successfully executed step sets it to
exactly the executed step's 1-based index, which is the previous value plus
one, and across any sequence of iterations (successes, failures, or
completion signals) it never decreases. -/
theorem claim_C4_lcs_monotone (s : EngineState) :
    (∀ o, s.last_completed_step ≤ ((advance s o).state s).last_completed_step) ∧
    (∀ o s' n, advance s o = .progressed s' n →
      s'.last_completed_step = n ∧ n = s.last_completed_step + 1) ∧
    (∀ outcomes, s.last_completed_step ≤
      (runAdvances s outcomes).last_completed_step) := by
  refine ⟨fun o => advance_lcs_mono s o, ?_, fun outcomes => runAdvances_lcs_mono s outcomes⟩
  intro o s' n h
  by_cases hd : s.ready_to_upload = true
  · rw [advance_done_eq s o hd] at h
    exact absurd h (by simp)
  · have h2 : s.ready_to_upload = false := by simpa using hd
    by_cases hk : stepDictHasKey (s.last_completed_step + 1) = true
    · cases o with
      | ok =>
        rw [advance_ok_eq s h2 hk] at h
        simp only [AdvanceResult.progressed.injEq] at h
        obtain ⟨h1, hn⟩ := h
        subst hn
        exact ⟨by rw [← h1], rfl⟩
      | err m =>
        rw [advance_err_eq s m h2 hk] at h
        exact absurd h (by simp)
    · have hkf : stepDictHasKey (s.last_completed_step + 1) = false := by
        simpa using hk
      rw [advance_bad_eq s o h2 hkf] at h
      exact absurd h (by simp)

theorem claim_C4_witness :
    initialEngineState.last_completed_step ≤
      ((advance initialEngineState .ok).state initialEngineState).last_completed_step ∧
    (advance initialEngineState .ok =
      .progressed ((advance initialEngineState .ok).state initialEngineState) 1 →
      ((advance initialEngineState .ok).state initialEngineState).last_completed_step = 1) := by
  obtain ⟨h1, h2, _⟩ := claim_C4_lcs_monotone initialEngineState
  exact ⟨h1 .ok, fun h => (h2 .ok _ 1 h).1⟩

/-- The states of the driver reachable from the initial record: while the
job is not done the completed-step counter is at most 8, and once the done
flag is set the counter is exactly 9 (only step 9 sets the flag, as its
final action). -/
def ReachableInv (s : EngineState) : Prop :=
  (s.last_completed_step ≤ 8 ∧ s.ready_to_upload = false) ∨
  (s.last_completed_step = 9 ∧ s.ready_to_upload = true)

theorem reachableInv_preserved (s : EngineState) (o : StepOutcome)
    (h : ReachableInv s) : ReachableInv ((advance s o).state s) := by
  rcases h with ⟨h1, h2⟩ | ⟨h1, h2⟩
  · have hk : stepDictHasKey (s.last_completed_step + 1) = true :=
      (stepDictHasKey_iff _).mpr (by omega)
    cases o with
    | ok =>
      rw [advance_ok_eq s h2 hk]
      show ReachableInv _
      by_cases h9 : s.last_completed_step + 1 = 9
      · right
        refine ⟨h9, ?_⟩
        show (s.ready_to_upload || (s.last_completed_step + 1 == 9)) = true
        simp [h9]
      · left
        refine ⟨by show s.last_completed_step + 1 ≤ 8; omega, ?_⟩
        show (s.ready_to_upload || (s.last_completed_step + 1 == 9)) = false
        simp only [h2, Bool.false_or, beq_eq_false_iff_ne, ne_eq]
        exact h9
    | err m =>
      rw [advance_err_eq s m h2 hk]
      exact Or.inl ⟨h1, h2⟩
  · rw [advance_done_eq s o h2]
    exact Or.inr ⟨h1, h2⟩

/-- C6: under the invariant satisfied by every state reachable from the
initial record, each loop iteration computes current =
last_completed_step + 1; if current exceeds the step count (9) the driver
signals completion rather than raising "Incorrect step"; otherwise it
executes step number current and, on normal return, sets
last_completed_step = current. The invariant holds initially and is
preserved by every iteration. -/
theorem claim_C6_advance_behaviour :
    ReachableInv initialEngineState ∧
    (∀ s o, ReachableInv s → ReachableInv ((advance s o).state s)) ∧
    (∀ s o, ReachableInv s →
      (get_total_steps < s.last_completed_step + 1 → advance s o = .completed) ∧
      (s.last_completed_step + 1 ≤ get_total_steps →
        (∀ m, advance s o ≠ .incorrectStep m) ∧
        (o = .ok → ∃ s', advance s o = .progressed s' (s.last_completed_step + 1) ∧
          s'.last_completed_step = s.last_completed_step + 1))) := by
  refine ⟨Or.inl ⟨by decide, rfl⟩, reachableInv_preserved, ?_⟩
  intro s o h
  have htotal : get_total_steps = 9 := rfl
  constructor
  · intro hgt
    rcases h with ⟨h1, _⟩ | ⟨_, h2⟩
    · omega
    · exact advance_done_eq s o h2
  · intro hle
    rcases h with ⟨h1, h2⟩ | ⟨h1, _⟩
    · have hk : stepDictHasKey (s.last_completed_step + 1) = true :=
        (stepDictHasKey_iff _).mpr (by omega)
      constructor
      · intro m
        cases o with
        | ok => rw [advance_ok_eq s h2 hk]; simp
        | err mm => rw [advance_err_eq s mm h2 hk]; simp
      · intro ho
        subst ho
        exact ⟨_, advance_ok_eq s h2 hk, rfl⟩
    · omega

theorem claim_C6_witness :
    ReachableInv initialEngineState ∧
    advance { initialEngineState with last_completed_step := 9, ready_to_upload := true }
      .ok = .completed := by
  obtain ⟨hinit, _, hstep⟩ := claim_C6_advance_behaviour
  refine ⟨hinit, ?_⟩
  have h := (hstep { initialEngineState with last_completed_step := 9, ready_to_upload := true }
    .ok (Or.inr ⟨rfl, rfl⟩)).1
  exact h (by decide)

/-! ## The persist step _saveVideo (step 9) -/

/-- External-world inputs of _saveVideo: whether the rendered file exists
at _db_video_path, and whether shutil.move succeeds when attempted. -/
structure SaveEnv where
  rendered_exists : Bool
  move_ok : Bool
deriving Repr, DecidableEq

/-- The _saveVideo step body: if the rendered video exists at
_db_video_path it is moved to the timestamped location (a raising move
fails the step before the flag assignment); if it does not exist the step
only prints a warning. In every non-raising path the final statement sets
_db_ready_to_upload = True. The Bool reports whether a move was
performed. -/
def saveVideo (s : EngineState) (new_video_path : String) (env : SaveEnv) :
    Except String (EngineState × Bool) :=
  if env.rendered_exists then
    if env.move_ok then
      .ok ({ s with video_path := new_video_path, ready_to_upload := true }, true)
    else .error "shutil.move raised"
  else
    .ok ({ s with ready_to_upload := true }, false)

/-- C10: when the rendered video file is missing, _saveVideo still
completes normally with _db_ready_to_upload = True, performs no move and
leaves _db_video_path unchanged; the resulting record is terminal
(isShortDone is true and every further loop iteration signals completion),
so the job reaches the done state with no output file produced or moved. -/
theorem claim_C10_save_completes_without_output (s : EngineState)
    (new_video_path : String) (env : SaveEnv)
    (h : env.rendered_exists = false) :
    saveVideo s new_video_path env = .ok ({ s with ready_to_upload := true }, false) ∧
    ({ s with ready_to_upload := true } : EngineState).video_path = s.video_path ∧
    isShortDone { s with ready_to_upload := true } = true ∧
    (∀ o, advance { s with ready_to_upload := true } o = .completed) := by
  refine ⟨?_, rfl, rfl, ?_⟩
  · unfold saveVideo
    simp [h]
  · intro o
    unfold advance
    simp [isShortDone]

/-- A record that has just finished step 8, used to witness the persist
step theorem. -/
def demoSaveState : EngineState :=
  { last_completed_step := 8, ready_to_upload := false, video_path := "missing.mp4" }

/-- The same record after _saveVideo ran with the rendered file missing. -/
def demoSaveStateDone : EngineState :=
  { last_completed_step := 8, ready_to_upload := true, video_path := "missing.mp4" }

/-- A persist-step environment in which the rendered file is missing. -/
def demoSaveEnv : SaveEnv := { rendered_exists := false, move_ok := true }

theorem claim_C10_witness :
    saveVideo demoSaveState "videos/out.mp4" demoSaveEnv =
      .ok (demoSaveStateDone, false) ∧
    isShortDone demoSaveStateDone = true ∧
    advance demoSaveStateDone .ok = .completed := by
  obtain ⟨h1, _, h3, h4⟩ := claim_C10_save_completes_without_output
    demoSaveState "videos/out.mp4" demoSaveEnv rfl
  exact ⟨h1, h3, h4 .ok⟩

/-! ## Step 6: _prepareBackgroundAssets -/

/-- The record fields read and written by _prepareBackgroundAssets.
Durations are seconds as rationals (Python floats); a None models a Python
None (which verifyParameters rejects). The trimmed-clip fields hold the
paths written inside the job's dynamic asset directory. -/
structure PrepState where
  audio_path : Option String
  voiceover_duration : Option ℚ
  background_video_duration : Option ℚ
  background_video_url : Option String
  background_music_url : Option String
  background_trimmed : Option String
  video_start_time : Option ℚ
  music_start_time : Option ℚ
  background_music_clip : Option String
deriving Repr, DecidableEq

/-- External-world inputs of _prepareBackgroundAssets: the durations
returned by getAudioDuration for the voice-over and the music, the two
random.random() draws (each in [0,1)), and whether each external
ffmpeg/crop invocation produces its output file. -/
structure PrepEnv where
  measured_audio_duration : ℚ
  measured_music_duration : ℚ
  rand_video : ℚ
  rand_music : ℚ
  trim_video_ok : Bool
  crop_ok : Bool
  trim_music_ok : Bool
deriving Repr, DecidableEq

/-- The exceptions _prepareBackgroundAssets can raise, named after the
spec's taxonomy. durationTooShortVideo and durationTooShortMusic are the
DurationTooShortError cases (the source raises Exception with the message
"Background video is too short!" resp. "Background music is too short!");
videoTrimFailed and musicTrimFailed are the AssetTrimError cases;
preconditionMissing is the ValueError raised by verifyParameters. -/
inductive PrepError where
  | preconditionMissing (param : String)
  | durationTooShortVideo (needed got : ℚ)
  | durationTooShortMusic (needed got : ℚ)
  | videoTrimFailed
  | cropFailed
  | musicTrimFailed
deriving Repr, DecidableEq

/-- The external media commands _prepareBackgroundAssets runs, in order:
the ffmpeg trim of the background video (at start offset, for voice-over
duration + 1 second buffer), the 9:16 crop, and the ffmpeg trim of the
music (at its own start offset, for the voice-over duration). -/
inductive FfmpegCall where
  | trimVideo (start len : ℚ)
  | cropVideo
  | trimMusic (start len : ℚ)
deriving Repr, DecidableEq

/-- Result of running _prepareBackgroundAssets: the external commands
issued, the record as left behind (Python keeps attribute mutations made
before a raise), and the raised exception if any. -/
structure PrepResult where
  calls : List FfmpegCall
  state : PrepState
  error : Option PrepError
deriving Repr, DecidableEq

/-- Python truthiness of an optional string attribute: None and the empty
string are falsy. -/
def truthyStr : Option String → Bool
  | none => false
  | some s => s != ""

/-- Step 1 of _prepareBackgroundAssets: "if not self._db_voiceover_duration"
re-measures the voice-over (None and 0.0 are falsy), otherwise the cached
value is kept. -/
def effectiveVoiceoverDuration (s : PrepState) (env : PrepEnv) : ℚ :=
  match s.voiceover_duration with
  | some d => if d = 0 then env.measured_audio_duration else d
  | none => env.measured_audio_duration

/-- The randomized start-offset computation, applied once to the video and
once to the music: max_start = source_duration - needed_duration * 1.1,
min_start = source_duration * 0.15 (skip the first 15 percent); the
degenerate case max_start <= min_start returns min_start, otherwise
min_start + r * (max_start - min_start) with r = random.random(). -/
def randStartTime (source_duration needed_duration r : ℚ) : ℚ :=
  if source_duration - needed_duration * (11/10) ≤ source_duration * (15/100) then
    source_duration * (15/100)
  else
    source_duration * (15/100) +
      r * ((source_duration - needed_duration * (11/10)) - source_duration * (15/100))

/-- The _prepareBackgroundAssets step body: verifyParameters, voice-over
duration, the two 1.2x margin checks (both before any trim), then — only
when _db_background_trimmed is falsy — the video trim at a random offset,
the 9:16 crop, the music offset draw and the music trim. -/
def prepareBackgroundAssets (s : PrepState) (env : PrepEnv) : PrepResult :=
  match s.audio_path, s.background_video_duration,
        s.background_video_url, s.background_music_url with
  | none, _, _, _ => ⟨[], s, some (.preconditionMissing "voiceover_audio_url")⟩
  | some _, none, _, _ => ⟨[], s, some (.preconditionMissing "video_duration")⟩
  | some _, some _, none, _ => ⟨[], s, some (.preconditionMissing "background_video_url")⟩
  | some _, some _, some _, none => ⟨[], s, some (.preconditionMissing "music_url")⟩
  | some _, some video_duration, some _, some _ =>
    let vd := effectiveVoiceoverDuration s env
    let s1 := { s with voiceover_duration := some vd }
    if video_duration < vd * (6/5) then
      ⟨[], s1, some (.durationTooShortVideo (vd * (6/5)) video_duration)⟩
    else
      let music_duration := env.measured_music_duration
      if music_duration < vd * (6/5) then
        ⟨[], s1, some (.durationTooShortMusic (vd * (6/5)) music_duration)⟩
      else
        if truthyStr s1.background_trimmed then ⟨[], s1, none⟩
        else
          let start_time := randStartTime video_duration vd env.rand_video
          let s2 := { s1 with video_start_time := some start_time }
          if env.trim_video_ok = false then
            ⟨[.trimVideo start_time (vd + 1)], s2, some .videoTrimFailed⟩
          else
            let s3 := { s2 with background_trimmed := some "clipped_background.mp4" }
            if env.crop_ok = false then
              ⟨[.trimVideo start_time (vd + 1), .cropVideo], s3, some .cropFailed⟩
            else
              let s4 := { s3 with background_trimmed := some "clipped_background_9_16.mp4" }
              let music_start := randStartTime music_duration vd env.rand_music
              let s5 := { s4 with music_start_time := some music_start }
              if env.trim_music_ok = false then
                ⟨[.trimVideo start_time (vd + 1), .cropVideo, .trimMusic music_start vd],
                 s5, some .musicTrimFailed⟩
              else
                ⟨[.trimVideo start_time (vd + 1), .cropVideo, .trimMusic music_start vd],
                 { s5 with background_music_clip := some "music_clip.mp3" }, none⟩

/-- C2: a background video shorter than voiceover_duration * 1.2 fails the
step with the DurationTooShortError for the video before any ffmpeg trim
runs and before any trimmed-clip path is written; when the video passes,
the identical 1.2x check is applied to the background music duration, with
the same no-trim guarantee. -/
theorem claim_C2_margin_check_before_trim (s : PrepState) (env : PrepEnv)
    (a vurl murl : String) (vdur : ℚ)
    (ha : s.audio_path = some a)
    (hv : s.background_video_duration = some vdur)
    (hvu : s.background_video_url = some vurl)
    (hmu : s.background_music_url = some murl) :
    (vdur < effectiveVoiceoverDuration s env * (6/5) →
      (prepareBackgroundAssets s env).error =
        some (.durationTooShortVideo (effectiveVoiceoverDuration s env * (6/5)) vdur) ∧
      (prepareBackgroundAssets s env).calls = [] ∧
      (prepareBackgroundAssets s env).state.background_trimmed = s.background_trimmed ∧
      (prepareBackgroundAssets s env).state.background_music_clip =
        s.background_music_clip) ∧
    (¬vdur < effectiveVoiceoverDuration s env * (6/5) →
      env.measured_music_duration < effectiveVoiceoverDuration s env * (6/5) →
      (prepareBackgroundAssets s env).error =
        some (.durationTooShortMusic (effectiveVoiceoverDuration s env * (6/5))
          env.measured_music_duration) ∧
      (prepareBackgroundAssets s env).calls = [] ∧
      (prepareBackgroundAssets s env).state.background_trimmed = s.background_trimmed ∧
      (prepareBackgroundAssets s env).state.background_music_clip =
        s.background_music_clip) := by
  constructor
  · intro hlt
    simp only [prepareBackgroundAssets, ha, hv, hvu, hmu, if_pos hlt]
    exact ⟨trivial, trivial, trivial, trivial⟩
  · intro hge hmlt
    simp only [prepareBackgroundAssets, ha, hv, hvu, hmu, if_neg hge, if_pos hmlt]
    exact ⟨trivial, trivial, trivial, trivial⟩

/-- A fresh record entering step 6 with a 100 second background video. -/
def demoPrepState : PrepState :=
  { audio_path := some "dynamic_assets/demo/temp_audio_path.wav",
    voiceover_duration := none,
    background_video_duration := some 100,
    background_video_url := some "assets/videos/bg.mp4",
    background_music_url := some "assets/audios/music.mp3",
    background_trimmed := none,
    video_start_time := none,
    music_start_time := none,
    background_music_clip := none }

/-- The same record but with an 11 second background video (exactly 1.1
times the 10 second voice-over measured by demoPrepEnv). -/
def demoShortVideoState : PrepState :=
  { demoPrepState with background_video_duration := some 11 }

/-- An environment measuring a 10 second voice-over and 100 seconds of
music, with both random draws fixed and all external commands succeeding. -/
def demoPrepEnv : PrepEnv :=
  { measured_audio_duration := 10, measured_music_duration := 100,
    rand_video := 1/2, rand_music := 1/4,
    trim_video_ok := true, crop_ok := true, trim_music_ok := true }

/-- The same environment but with only 11 seconds of background music. -/
def demoShortMusicEnv : PrepEnv :=
  { demoPrepEnv with measured_music_duration := 11 }

theorem claim_C2_witness :
    (prepareBackgroundAssets demoShortVideoState demoPrepEnv).error =
      some (.durationTooShortVideo 12 11) ∧
    (prepareBackgroundAssets demoShortVideoState demoPrepEnv).calls = [] ∧
    (prepareBackgroundAssets demoShortVideoState demoPrepEnv).state.background_trimmed =
      none ∧
    (prepareBackgroundAssets demoPrepState demoShortMusicEnv).error =
      some (.durationTooShortMusic 12 11) ∧
    (prepareBackgroundAssets demoPrepState demoShortMusicEnv).calls = [] := by
  have hvd1 : effectiveVoiceoverDuration demoShortVideoState demoPrepEnv = 10 := rfl
  have hvd2 : effectiveVoiceoverDuration demoPrepState demoShortMusicEnv = 10 := rfl
  obtain ⟨hvid, _⟩ := claim_C2_margin_check_before_trim demoShortVideoState demoPrepEnv
    _ _ _ _ rfl rfl rfl rfl
  obtain ⟨hA, hB, hC, _⟩ := hvid (by rw [hvd1]; norm_num)
  obtain ⟨_, hmus⟩ := claim_C2_margin_check_before_trim demoPrepState demoShortMusicEnv
    _ _ _ _ rfl rfl rfl rfl
  obtain ⟨hD, hE, _, _⟩ := hmus (by rw [hvd2]; norm_num)
    (by show (11 : ℚ) < effectiveVoiceoverDuration demoPrepState demoShortMusicEnv * (6/5)
        rw [hvd2]; norm_num)
  have h12 : effectiveVoiceoverDuration demoShortVideoState demoPrepEnv * (6/5) = 12 := by
    rw [hvd1]; norm_num
  have h12m : effectiveVoiceoverDuration demoPrepState demoShortMusicEnv * (6/5) = 12 := by
    rw [hvd2]; norm_num
  have h11m : demoShortMusicEnv.measured_music_duration = 11 := rfl
  rw [h12] at hA
  rw [h12m, h11m] at hD
  exact ⟨hA, hB, hC, hD, hE⟩

theorem randStartTime_bounds (D need r : ℚ) (hneed : 0 ≤ need)
    (hmargin : need * (6/5) ≤ D) (hr0 : 0 ≤ r) (hr1 : r < 1) :
    0 ≤ randStartTime D need r ∧ randStartTime D need r ≤ D - need := by
  have hD : 0 ≤ D := by nlinarith
  unfold randStartTime
  by_cases hc : D - need * (11/10) ≤ D * (15/100)
  · rw [if_pos hc]
    constructor
    · linarith
    · linarith
  · rw [if_neg hc]
    push_neg at hc
    have hgap : 0 ≤ (D - need * (11/10)) - D * (15/100) := by linarith
    have hlo : 0 ≤ r * ((D - need * (11/10)) - D * (15/100)) := mul_nonneg hr0 hgap
    have hhi : r * ((D - need * (11/10)) - D * (15/100)) ≤
        (D - need * (11/10)) - D * (15/100) :=
      mul_le_of_le_one_left hgap hr1.le
    constructor
    · linarith
    · linarith

theorem prepare_offsets_eq (s : PrepState) (env : PrepEnv)
    (a vurl murl : String) (vdur : ℚ)
    (ha : s.audio_path = some a)
    (hv : s.background_video_duration = some vdur)
    (hvu : s.background_video_url = some vurl)
    (hmu : s.background_music_url = some murl)
    (hfresh : truthyStr s.background_trimmed = false)
    (hcheckv : ¬vdur < effectiveVoiceoverDuration s env * (6/5))
    (hcheckm : ¬env.measured_music_duration < effectiveVoiceoverDuration s env * (6/5))
    (htv : env.trim_video_ok = true)
    (hcrop : env.crop_ok = true) :
    (prepareBackgroundAssets s env).state.video_start_time =
      some (randStartTime vdur (effectiveVoiceoverDuration s env) env.rand_video) ∧
    (prepareBackgroundAssets s env).state.music_start_time =
      some (randStartTime env.measured_music_duration
        (effectiveVoiceoverDuration s env) env.rand_music) := by
  by_cases hm : env.trim_music_ok = false
  · simp [prepareBackgroundAssets, ha, hv, hvu, hmu, if_neg hcheckv, if_neg hcheckm,
      hfresh, htv, hcrop, hm]
  · have hm' : env.trim_music_ok = true := by simpa using hm
    simp [prepareBackgroundAssets, ha, hv, hvu, hmu, if_neg hcheckv, if_neg hcheckm,
      hfresh, htv, hcrop, hm']

/-- C5: for a job that passes the 1.2x margin checks, the chosen video and
music start offsets each satisfy 0 <= offset <= source_duration -
needed_duration, each is the offset formula drawn against its own source
duration with its own random.random() value, and the two draws are
independent: changing one job's music draw leaves the video offset
unchanged and vice versa. -/
theorem claim_C5_offset_invariants (s : PrepState) (env : PrepEnv)
    (a vurl murl : String) (vdur : ℚ)
    (ha : s.audio_path = some a)
    (hv : s.background_video_duration = some vdur)
    (hvu : s.background_video_url = some vurl)
    (hmu : s.background_music_url = some murl)
    (hfresh : truthyStr s.background_trimmed = false)
    (hvd0 : 0 ≤ effectiveVoiceoverDuration s env)
    (hcheckv : ¬vdur < effectiveVoiceoverDuration s env * (6/5))
    (hcheckm : ¬env.measured_music_duration < effectiveVoiceoverDuration s env * (6/5))
    (htv : env.trim_video_ok = true)
    (hcrop : env.crop_ok = true)
    (hrv0 : 0 ≤ env.rand_video) (hrv1 : env.rand_video < 1)
    (hrm0 : 0 ≤ env.rand_music) (hrm1 : env.rand_music < 1) :
    (prepareBackgroundAssets s env).state.video_start_time =
      some (randStartTime vdur (effectiveVoiceoverDuration s env) env.rand_video) ∧
    (prepareBackgroundAssets s env).state.music_start_time =
      some (randStartTime env.measured_music_duration
        (effectiveVoiceoverDuration s env) env.rand_music) ∧
    (0 ≤ randStartTime vdur (effectiveVoiceoverDuration s env) env.rand_video ∧
      randStartTime vdur (effectiveVoiceoverDuration s env) env.rand_video ≤
        vdur - effectiveVoiceoverDuration s env) ∧
    (0 ≤ randStartTime env.measured_music_duration
        (effectiveVoiceoverDuration s env) env.rand_music ∧
      randStartTime env.measured_music_duration
        (effectiveVoiceoverDuration s env) env.rand_music ≤
        env.measured_music_duration - effectiveVoiceoverDuration s env) ∧
    (∀ r, (prepareBackgroundAssets s { env with rand_music := r }).state.video_start_time =
      (prepareBackgroundAssets s env).state.video_start_time) ∧
    (∀ r, (prepareBackgroundAssets s { env with rand_video := r }).state.music_start_time =
      (prepareBackgroundAssets s env).state.music_start_time) := by
  obtain ⟨hvs, hms⟩ := prepare_offsets_eq s env a vurl murl vdur
    ha hv hvu hmu hfresh hcheckv hcheckm htv hcrop
  push_neg at hcheckv hcheckm
  refine ⟨hvs, hms,
    randStartTime_bounds vdur _ _ hvd0 hcheckv hrv0 hrv1,
    randStartTime_bounds _ _ _ hvd0 hcheckm hrm0 hrm1, ?_, ?_⟩
  · intro r
    obtain ⟨h', _⟩ := prepare_offsets_eq s { env with rand_music := r } a vurl murl vdur
      ha hv hvu hmu hfresh hcheckv.not_lt hcheckm.not_lt htv hcrop
    rw [h', hvs]
    exact rfl
  · intro r
    obtain ⟨_, h'⟩ := prepare_offsets_eq s { env with rand_video := r } a vurl murl vdur
      ha hv hvu hmu hfresh hcheckv.not_lt hcheckm.not_lt htv hcrop
    rw [h', hms]
    exact rfl

theorem claim_C5_witness :
    (prepareBackgroundAssets demoPrepState demoPrepEnv).state.video_start_time =
      some (randStartTime 100 10 (1/2)) ∧
    (0 ≤ randStartTime 100 10 (1/2) ∧ randStartTime 100 10 (1/2) ≤ 90) ∧
    (prepareBackgroundAssets demoPrepState demoPrepEnv).state.music_start_time =
      some (randStartTime 100 10 (1/4)) ∧
    (0 ≤ randStartTime 100 10 (1/4) ∧ randStartTime 100 10 (1/4) ≤ 90) := by
  have hvd : effectiveVoiceoverDuration demoPrepState demoPrepEnv = 10 := rfl
  obtain ⟨h1, h2, ⟨h3, h4⟩, ⟨h5, h6⟩, _, _⟩ :=
    claim_C5_offset_invariants demoPrepState demoPrepEnv _ _ _ _
      rfl rfl rfl rfl rfl
      (by rw [hvd]; norm_num)
      (by show ¬(100 : ℚ) < effectiveVoiceoverDuration demoPrepState demoPrepEnv * (6/5)
          rw [hvd]; norm_num)
      (by show ¬(100 : ℚ) < effectiveVoiceoverDuration demoPrepState demoPrepEnv * (6/5)
          rw [hvd]; norm_num)
      rfl rfl
      (by norm_num [demoPrepEnv]) (by norm_num [demoPrepEnv])
      (by norm_num [demoPrepEnv]) (by norm_num [demoPrepEnv])
  have hrv : demoPrepEnv.rand_video = 1/2 := rfl
  have hrm : demoPrepEnv.rand_music = 1/4 := rfl
  have hmd : demoPrepEnv.measured_music_duration = 100 := rfl
  rw [hvd, hrv] at h1 h3 h4
  rw [hvd, hrm, hmd] at h2 h5 h6
  exact ⟨h1, ⟨h3, by linarith [h4]⟩, h2, ⟨h5, by linarith [h6]⟩⟩

/-! ## Step 8: _editAndRenderShort -/

/-- The editing steps _editAndRenderShort feeds the EditingEngine, with the
parameters the fallback changes. ADD_CAPTION_SHORT and
ADD_CAPTION_SHORT_ARABIC are one constructor with an arabic tag. -/
inductive EditingStep where
  | addVoiceoverAudio (url : String)
  | addBackgroundMusic (url : String)
  | addBackgroundVideo (url : String)
  | addSubscribeAnimation (url : String)
  | addRedditImage (url : String)
  | addCaption (arabic : Bool) (text : String) (t0 t1 : ℚ) (animate_words : Bool)
deriving Repr, DecidableEq

/-- Errors renderVideo (the external compositor) can raise: a Python
ValueError with its message, or an exception of any other class. The
source's except clause catches only ValueError. -/
inductive RenderError where
  | valueError (msg : String)
  | otherError (msg : String)
deriving Repr, DecidableEq

/-- The record fields _editAndRenderShort reads. -/
structure RenderState where
  audio_path : Option String
  background_video_duration : Option ℚ
  background_music_url : Option String
  voiceover_duration : ℚ
  background_trimmed : String
  background_music_clip : Option String
  reddit_thread_image : String
  timed_captions : List ((ℚ × ℚ) × String)
  language : String
  video_path : String
deriving Repr, DecidableEq

/-- External-world inputs of _editAndRenderShort: whether the rendered
output already exists (resume), whether the AudioFileClip probes of the
voice-over and music succeed, whether the subscribe animation file is
present and valid, and the outcome of each renderVideo call. -/
structure RenderEnv where
  output_exists : Bool
  voice_audio_ok : Bool
  music_audio_ok : Bool
  subscribe_animation_ok : Bool
  first_render : Option RenderError
  retry_render : Option RenderError
deriving Repr, DecidableEq

/-- The exact substring the except ValueError branch looks for in str(e)
to recognise the MoviePy broadcast-shape compositing error. -/
def shapeMismatchMsg : String := "operands could not be broadcast together with shapes"

/-- Python's "needle in haystack" on strings. -/
def containsSubstr (hay needle : String) : Bool := decide (needle.toList <:+: hay.toList)

/-- Language.ARABIC.value. ShortGen/config/languages.py is not among the
provided sources; the exact enum string is opaque here and nothing proved
below depends on it. -/
def arabicLanguageValue : String := "ar"

/-- The rendered output path, dynamicAssetDir + "rendered_video.mp4". -/
def renderedVideoPath : String := "rendered_video.mp4"

/-- The music url used for ADD_BACKGROUND_MUSIC: the pre-cut clip when the
attribute exists and is truthy, else _db_background_music_url. -/
def musicToUse (s : RenderState) (murl : String) : String :=
  match s.background_music_clip with
  | some p => if p != "" then p else murl
  | none => murl

/-- The full first-attempt edit list: voice-over (when its probe succeeds),
background music (when its probe succeeds), background video, subscribe
animation (when present and valid), reddit image, then one animated
caption step per timed caption, Arabic when _db_language matches. -/
def fullRenderSteps (s : RenderState) (env : RenderEnv) (apath murl : String) :
    List EditingStep :=
  (if env.voice_audio_ok then [EditingStep.addVoiceoverAudio apath] else []) ++
  (if env.music_audio_ok then [EditingStep.addBackgroundMusic (musicToUse s murl)] else []) ++
  [EditingStep.addBackgroundVideo s.background_trimmed] ++
  (if env.subscribe_animation_ok then
    [EditingStep.addSubscribeAnimation "assets/extra/subscribe_animation.mp4"] else []) ++
  [EditingStep.addRedditImage s.reddit_thread_image] ++
  s.timed_captions.map (fun c =>
    EditingStep.addCaption (s.language == arabicLanguageValue) c.2.toUpper c.1.1 c.1.2 true)

/-- The simplified retry edit list built from the same record: voice-over
and background video only, plus one caption step per timed caption with
animate_words disabled — no subscribe animation, no reddit image, no
background music. -/
def simpleRenderSteps (s : RenderState) (apath : String) : List EditingStep :=
  [EditingStep.addVoiceoverAudio apath,
   EditingStep.addBackgroundVideo s.background_trimmed] ++
  s.timed_captions.map (fun c =>
    EditingStep.addCaption (s.language == arabicLanguageValue) c.2.toUpper c.1.1 c.1.2 false)

/-- Result of _editAndRenderShort: the renderVideo attempts issued (each
with its edit list, in order), the exception propagating out of the step if
any, and the record as left behind. -/
structure RenderResult where
  attempts : List (List EditingStep)
  error : Option RenderError
  state : RenderState
deriving Repr, DecidableEq

/-- The _editAndRenderShort step body: verifyParameters; when the output
file already exists, skip rendering and just set _db_video_path; otherwise
render the full edit list, and on a ValueError whose message contains the
broadcast-shape substring retry exactly once with the simplified list (a
ValueError of any other message is re-raised, any other exception class is
never caught, and a retry failure propagates). The video path is set only
when no exception escapes. -/
def editAndRenderShort (s : RenderState) (env : RenderEnv) : RenderResult :=
  match s.audio_path, s.background_video_duration, s.background_music_url with
  | none, _, _ =>
      ⟨[], some (.valueError "Parameter voiceover_audio_url is required but was not provided"), s⟩
  | some _, none, _ =>
      ⟨[], some (.valueError "Parameter video_duration is required but was not provided"), s⟩
  | some _, some _, none =>
      ⟨[], some (.valueError "Parameter music_url is required but was not provided"), s⟩
  | some apath, some _, some murl =>
    if env.output_exists then ⟨[], none, { s with video_path := renderedVideoPath }⟩
    else
      let full := fullRenderSteps s env apath murl
      match env.first_render with
      | none => ⟨[full], none, { s with video_path := renderedVideoPath }⟩
      | some (.valueError msg) =>
        if containsSubstr msg shapeMismatchMsg then
          let simple := simpleRenderSteps s apath
          match env.retry_render with
          | none => ⟨[full, simple], none, { s with video_path := renderedVideoPath }⟩
          | some e2 => ⟨[full, simple], some e2, s⟩
        else ⟨[full], some (.valueError msg), s⟩
      | some (.otherError m) => ⟨[full], some (.otherError m), s⟩

/-- True for caption steps with word animation on. -/
def EditingStep.captionAnimated : EditingStep → Bool
  | .addCaption _ _ _ _ animate => animate
  | _ => false

/-- True for the steps the simplified retry removes: the decorative
overlays (subscribe animation, reddit image) and the background music. -/
def EditingStep.droppedInFallback : EditingStep → Bool
  | .addSubscribeAnimation _ => true
  | .addRedditImage _ => true
  | .addBackgroundMusic _ => true
  | _ => false

theorem simpleRenderSteps_reduced (s : RenderState) (apath : String) :
    ∀ st ∈ simpleRenderSteps s apath,
      st.captionAnimated = false ∧ st.droppedInFallback = false := by
  intro st hst
  simp only [simpleRenderSteps, List.cons_append, List.nil_append, List.mem_cons,
    List.mem_map] at hst
  rcases hst with h | h | ⟨c, _, h⟩ <;> subst h <;> exact ⟨rfl, rfl⟩

/-- C3: a first-attempt ValueError whose message contains the recognised
broadcast-shape substring triggers exactly one retry, on the same record,
whose edit list disables caption animation and drops the decorative
overlays and music; a retry failure propagates with no further attempt. A
first-attempt ValueError without the substring, or an exception of any
other class, propagates immediately with exactly one attempt made. -/
theorem claim_C3_single_degraded_retry (s : RenderState) (env : RenderEnv)
    (apath murl : String) (vdur : ℚ)
    (ha : s.audio_path = some apath)
    (hv : s.background_video_duration = some vdur)
    (hm : s.background_music_url = some murl)
    (hout : env.output_exists = false) :
    (∀ msg, env.first_render = some (.valueError msg) →
      containsSubstr msg shapeMismatchMsg = true →
      (editAndRenderShort s env).attempts =
        [fullRenderSteps s env apath murl, simpleRenderSteps s apath] ∧
      (∀ st ∈ simpleRenderSteps s apath,
        st.captionAnimated = false ∧ st.droppedInFallback = false) ∧
      (env.retry_render = none → (editAndRenderShort s env).error = none) ∧
      (∀ e2, env.retry_render = some e2 → (editAndRenderShort s env).error = some e2)) ∧
    (∀ msg, env.first_render = some (.valueError msg) →
      containsSubstr msg shapeMismatchMsg = false →
      (editAndRenderShort s env).attempts = [fullRenderSteps s env apath murl] ∧
      (editAndRenderShort s env).error = some (.valueError msg)) ∧
    (∀ m, env.first_render = some (.otherError m) →
      (editAndRenderShort s env).attempts = [fullRenderSteps s env apath murl] ∧
      (editAndRenderShort s env).error = some (.otherError m)) := by
  refine ⟨?_, ?_, ?_⟩
  · intro msg hfr hsub
    refine ⟨?_, simpleRenderSteps_reduced s apath, ?_, ?_⟩
    · cases hrr : env.retry_render with
      | none => simp [editAndRenderShort, ha, hv, hm, hout, hfr, hsub, hrr]
      | some e2 => simp [editAndRenderShort, ha, hv, hm, hout, hfr, hsub, hrr]
    · intro hrr
      simp [editAndRenderShort, ha, hv, hm, hout, hfr, hsub, hrr]
    · intro e2 hrr
      simp [editAndRenderShort, ha, hv, hm, hout, hfr, hsub, hrr]
  · intro msg hfr hsub
    constructor <;> simp [editAndRenderShort, ha, hv, hm, hout, hfr, hsub]
  · intro m hfr
    constructor <;> simp [editAndRenderShort, ha, hv, hm, hout, hfr]

/-- A record entering step 8 with two timed captions. -/
def demoRenderState : RenderState :=
  { audio_path := some "temp_audio_path.wav",
    background_video_duration := some 100,
    background_music_url := some "assets/audios/music.mp3",
    voiceover_duration := 10,
    background_trimmed := "clipped_background_9_16.mp4",
    background_music_clip := some "music_clip.mp3",
    reddit_thread_image := "redditThreadImage.png",
    timed_captions := [((0, 1), "hello"), ((1, 2), "world")],
    language := "en",
    video_path := "" }

/-- A broadcast-shape compositing error message as MoviePy produces it. -/
def demoShapeMsg : String :=
  "operands could not be broadcast together with shapes (1920,1080,3) (1920,1080,4) "

/-- A render environment in which the first attempt raises the recognised
shape-mismatch ValueError and the retry succeeds. -/
def demoRenderEnv : RenderEnv :=
  { output_exists := false, voice_audio_ok := true, music_audio_ok := true,
    subscribe_animation_ok := true,
    first_render := some (.valueError demoShapeMsg),
    retry_render := none }

theorem claim_C3_witness :
    (editAndRenderShort demoRenderState demoRenderEnv).attempts =
      [fullRenderSteps demoRenderState demoRenderEnv "temp_audio_path.wav"
         "assets/audios/music.mp3",
       simpleRenderSteps demoRenderState "temp_audio_path.wav"] ∧
    (editAndRenderShort demoRenderState demoRenderEnv).error = none ∧
    (∀ st ∈ simpleRenderSteps demoRenderState "temp_audio_path.wav",
      st.captionAnimated = false ∧ st.droppedInFallback = false) := by
  obtain ⟨hshape, _, _⟩ := claim_C3_single_degraded_retry demoRenderState demoRenderEnv
    "temp_audio_path.wav" "assets/audios/music.mp3" 100 rfl rfl rfl rfl
  obtain ⟨hatt, hred, hok, _⟩ := hshape demoShapeMsg rfl (by decide)
  exact ⟨hatt, hok rfl, hred⟩

/-! ## Step 3: _timeCaptions -/

/-- Outcome of the transcription phase inside the try block: the
audio_utils.audioToText call raised; it returned invalid (falsy or
non-dict) data, making the step raise ValueError internally; or it
succeeded and getWordByWordCaptionsWithTime produced the given list. -/
inductive WhisperResult where
  | raised (msg : String)
  | invalid
  | processed (caps : List ((ℚ × ℚ) × String))
deriving Repr, DecidableEq

/-- External-world inputs of _timeCaptions: whether the audio file exists,
the transcription outcome, and whether getAudioDuration succeeds together
with the duration it reports. -/
structure CaptionEnv where
  audio_file_exists : Bool
  whisper : WhisperResult
  measure_ok : Bool
  audio_duration : ℚ
deriving Repr, DecidableEq

/-- The _timeCaptions step body. verifyParameters runs before the try block
(audioPath = None raises out of the step); inside the try, a missing file,
a raising or invalid transcription, or a failing duration probe on the
empty-caption placeholder path all jump to the except block, which builds a
single fallback caption over (0, audio_duration), or over (0, 30) when
measuring the duration also fails; the except block swallows every
exception, so a job never fails past verifyParameters. -/
def timeCaptions (audio_path : Option String) (env : CaptionEnv) :
    Except String (List ((ℚ × ℚ) × String)) :=
  match audio_path with
  | none => .error "Parameter audioPath is required but was not provided"
  | some _ =>
    let tryResult : Except String (List ((ℚ × ℚ) × String)) :=
      if env.audio_file_exists = false then .error "Audio file not found"
      else
        match env.whisper with
        | .raised m => .error m
        | .invalid => .error "Invalid Whisper analysis result"
        | .processed caps =>
          if caps.length < 1 then
            if env.measure_ok then .ok [((0, env.audio_duration), "NO CAPTIONS AVAILABLE")]
            else .error "duration probe failed"
          else .ok caps
    match tryResult with
    | .ok caps => .ok caps
    | .error _ =>
      if env.measure_ok then .ok [((0, env.audio_duration), "CAPTIONS UNAVAILABLE")]
      else .ok [((0, 30), "CAPTIONS UNAVAILABLE")]

/-- An environment in which the transcription raises and the fallback
duration probe also fails (for instance a corrupt audio file whose true
duration is 5 seconds). -/
def demoCaptionFailEnv : CaptionEnv :=
  { audio_file_exists := true, whisper := .raised "whisper crashed",
    measure_ok := false, audio_duration := 5 }

/-- C8 counterexample: with a raising transcription whose fallback duration
probe also fails, the step yields the generic 30 second fallback caption,
not one spanning (0, audio_duration) — here the audio lasts 5 seconds, so
the claim's asserted caption list differs from the produced one. -/
theorem claim_C8_counterexample :
    timeCaptions (some "temp_audio_path.wav") demoCaptionFailEnv =
      .ok [((0, 30), "CAPTIONS UNAVAILABLE")] ∧
    ¬ timeCaptions (some "temp_audio_path.wav") demoCaptionFailEnv =
      .ok [((0, demoCaptionFailEnv.audio_duration), "CAPTIONS UNAVAILABLE")] := by
  constructor
  · rfl
  · intro h
    have h5 : demoCaptionFailEnv.audio_duration = 5 := rfl
    rw [h5] at h
    have : ((30 : ℚ) = 5) := by
      have := Except.ok.inj h
      have h2 := List.head_eq_of_cons_eq this
      have h3 := congrArg Prod.fst h2
      have h4 := congrArg Prod.snd h3
      exact h4
    norm_num at this

/-- C8 (amended): when the transcription call raises, the caption step
never fails the job; it produces a single fallback caption with text
CAPTIONS UNAVAILABLE spanning (0, audio_duration) when the audio duration
can be measured, and spanning the fixed (0, 30) when measuring the
duration also fails. -/
theorem claim_C8_caption_fallback (apath : String) (env : CaptionEnv)
    (hexists : env.audio_file_exists = true)
    (msg : String) (hw : env.whisper = .raised msg) :
    (env.measure_ok = true →
      timeCaptions (some apath) env =
        .ok [((0, env.audio_duration), "CAPTIONS UNAVAILABLE")]) ∧
    (env.measure_ok = false →
      timeCaptions (some apath) env = .ok [((0, 30), "CAPTIONS UNAVAILABLE")]) ∧
    (∃ caps, timeCaptions (some apath) env = .ok caps ∧ caps.length = 1) := by
  refine ⟨?_, ?_, ?_⟩
  · intro hm
    simp [timeCaptions, hexists, hw, hm]
  · intro hm
    simp [timeCaptions, hexists, hw, hm]
  · cases hm : env.measure_ok with
    | true =>
      exact ⟨[((0, env.audio_duration), "CAPTIONS UNAVAILABLE")],
        by simp [timeCaptions, hexists, hw, hm], rfl⟩
    | false =>
      exact ⟨[((0, 30), "CAPTIONS UNAVAILABLE")],
        by simp [timeCaptions, hexists, hw, hm], rfl⟩

/-- An environment in which the transcription raises but the 12 second
audio duration can still be measured. -/
def demoCaptionEnv : CaptionEnv :=
  { audio_file_exists := true, whisper := .raised "whisper crashed",
    measure_ok := true, audio_duration := 12 }

theorem claim_C8_witness :
    timeCaptions (some "temp_audio_path.wav") demoCaptionEnv =
      .ok [((0, 12), "CAPTIONS UNAVAILABLE")] := by
  obtain ⟨hok, _, _⟩ := claim_C8_caption_fallback "temp_audio_path.wav" demoCaptionEnv
    rfl "whisper crashed" rfl
  exact hok rfl

/-! ## The batch scheduler's engine construction
(generate_variant_video in src/channel_scheduler.py) -/

/-- The keyword parameters RedditShortEngine.__init__ accepts; voiceModule
is passed positionally by generate_variant_video and __init__ has no
**kwargs. -/
def redditShortEngineInitKeywords : List String :=
  ["background_video_name", "background_music_name", "reddit_link",
   "short_id", "language", "story_title", "story_content"]

/-- The keyword arguments generate_variant_video passes to
RedditShortEngine (src/channel_scheduler.py lines 426-436). -/
def generateVariantVideoKwargs : List String :=
  ["background_video_name", "background_music_name", "reddit_link", "short_id",
   "language", "story_title", "story_content", "pre_generated_audio_path"]

/-- Python's keyword-argument check: calling a function with a keyword not
among its parameters (and no **kwargs) raises TypeError naming an
unexpected keyword. -/
def unexpectedKeyword (accepted kwargs : List String) : Option String :=
  kwargs.find? (fun k => !(accepted.contains k))

/-- The generate_variant_video control flow up to the pipeline: list and
pick a random background video (choose_random_or_raise raises
FileNotFoundError when none), construct RedditShortEngine with the keyword
arguments above (Python raises TypeError at the call when a keyword is
unexpected), then iterate engine.makeContent(). The first component lists
the pipeline step numbers reached. -/
def generate_variant_video (video_files : List String) :
    List ℕ × Except String Unit :=
  if video_files.isEmpty then
    ([], .error "FileNotFoundError: No video assets found")
  else
    match unexpectedKeyword redditShortEngineInitKeywords generateVariantVideoKwargs with
    | some k => ([], .error ("TypeError: unexpected keyword argument " ++ k))
    | none => (stepDictKeys, .ok ())

/-- C9: every generate_variant_video call that gets past asset selection
raises a TypeError for the unexpected keyword pre_generated_audio_path,
which RedditShortEngine.__init__ does not accept, before any pipeline step
executes — the cron-driven render path never reaches step 1. -/
theorem claim_C9_scheduler_type_error (video_files : List String)
    (h : video_files ≠ []) :
    generate_variant_video video_files =
      ([], .error "TypeError: unexpected keyword argument pre_generated_audio_path") := by
  cases video_files with
  | nil => exact absurd rfl h
  | cons f rest => rfl

theorem claim_C9_witness :
    generate_variant_video ["assets/videos/bg.mp4"] =
      ([], .error "TypeError: unexpected keyword argument pre_generated_audio_path") :=
  claim_C9_scheduler_type_error ["assets/videos/bg.mp4"] (by decide)

end RedditStoriesGen
